import Mathlib

/-!
# Verification of the roof-mri-backend proposal lifecycle

Shallow embedding of `src/server.js` (the current version of the server: the
Express routes `POST /api/send-proposal`, `GET /api/proposals/:id`,
`POST /api/proposals/:id/sign`, `POST /api/proposals/:id/checkout`,
`POST /api/stripe-webhook`).

The Postgres table `proposals` is modelled as a map from the primary key `id`
to an optional row.  Each SQL query of an endpoint is an atomic step on the
store (Postgres serialises each single-row `UPDATE`); an endpoint invocation
is a sequence of such atomic steps, and the conditional `UPDATE ... WHERE id
AND status != 'signed' RETURNING *` of the sign route is a single atomic
compare-and-set.  Timestamps (`NOW()`) are supplied as explicit `Nat`
parameters; the randomly generated proposal id and the Stripe session id are
supplied as explicit `String` parameters.  Outbound SendGrid and Stripe calls
are modelled by explicit success parameters and, where a claim needs the
order of effects, by an action trace.
-/

/-- One row of the `proposals` table (see `initDB` in `src/server.js`).
`NUMERIC` columns are modelled as `Rat`, `TIMESTAMPTZ` as `Nat`, nullable
columns as `Option`.  Column defaults from the `CREATE TABLE` statement:
`status = sent`, `payment_status = unpaid`, `open_count = 0`. -/
structure Proposal where
  proposal_num : Option String
  contact_name : String
  company : String
  email : String
  tier : Option String
  tier_price : Option Rat
  extra_trainees : Nat
  extra_kits : Nat
  tracks : List String
  videography : Bool
  on_roof_day : Bool
  total_price : Option Rat
  let_client_choose : Bool
  vimeo_url : Option String
  status : String
  signature_name : Option String
  signature_data : Option String
  signed_at : Option Nat
  created_at : Nat
  opened_at : Option Nat
  open_count : Nat
  payment_status : String
  stripe_session_id : Option String
deriving DecidableEq, Repr

/-- The proposals table: a partial map keyed by the `id` primary key. -/
def DB : Type := String → Option Proposal

/-- `INSERT INTO proposals ... VALUES (id, ...)`. -/
def dbInsert (db : DB) (id : String) (p : Proposal) : DB :=
  fun k => if k = id then some p else db k

/-- `UPDATE proposals SET ... WHERE id = $id`: applies `f` to the row with
key `id` if it exists; a no-op on every other key and when the row is
missing (the SQL `UPDATE` then matches zero rows). -/
def dbMapRow (db : DB) (id : String) (f : Proposal → Proposal) : DB :=
  fun k => if k = id then (db k).map f else db k

/-- `stripHtml` from `src/server.js`: `str.replace(/[<>]/g, '')`. -/
def stripHtml (s : String) : String :=
  String.mk (s.data.filter (fun c => c != '<' && c != '>'))

/-- `isValidEmail` from `src/server.js`: the test
`/^[^\s@]+@[^\s@]+\.[^\s@]+$/.test(email)`.  The regex matches exactly the
strings of the shape `local @ domain` with a single at-sign, a nonempty
whitespace-free local part, and a whitespace-free domain containing a dot
that is neither its first nor its last character. -/
def isValidEmail (s : String) : Bool :=
  match s.data.splitOn '@' with
  | [loc, domain] =>
      !loc.isEmpty && loc.all (fun c => !c.isWhitespace) &&
      domain.all (fun c => !c.isWhitespace) &&
      (domain.drop 1).dropLast.contains '.'
  | _ => false

/-- The row transformer of the open-tracking query of `GET /api/proposals/:id`:
`UPDATE proposals SET opened_at = COALESCE(opened_at, NOW()),
open_count = open_count + 1 WHERE id = $1`. -/
def applyOpen (now : Nat) (p : Proposal) : Proposal :=
  { p with opened_at := some (p.opened_at.getD now), open_count := p.open_count + 1 }

/-- The row transformer of the conditional update of `POST
/api/proposals/:id/sign`: `SET status = 'signed', signature_name = $1,
signature_data = $2, signed_at = NOW()` where `$1` is
`stripHtml(signatureName)`. -/
def applySign (signatureName signatureData : String) (now : Nat) (p : Proposal) : Proposal :=
  { p with status := "signed", signature_name := some (stripHtml signatureName),
           signature_data := some signatureData, signed_at := some now }

/-- The row transformer of the webhook update of `POST /api/stripe-webhook`:
`SET payment_status = 'paid', stripe_session_id = $1`. -/
def applyPaid (sessionId : String) (p : Proposal) : Proposal :=
  { p with payment_status := "paid", stripe_session_id := some sessionId }

/-- The price guard of `POST /api/proposals/:id/checkout`:
`!proposal.total_price || Number(proposal.total_price) <= 0`
(a `NULL` price is falsy; otherwise the numeric comparison decides). -/
def priceInvalid : Option Rat → Bool
  | none => true
  | some q => decide (q ≤ 0)

/-- The global state: the `proposals` table plus the set of Stripe Checkout
sessions this server has created (pairs of session id and the `proposal_id`
correlation metadata attached at `stripe.checkout.sessions.create`). -/
structure SystemState where
  db : DB
  sessions : List (String × String)

/-- The state at process start: an empty `proposals` table and no sessions. -/
def initState : SystemState :=
  { db := fun _ => none, sessions := [] }

/-- The request body of `POST /api/send-proposal`.  The route accepts both
camelCase and snake_case spellings of each field (`data.x = data.x ??
data.x_alt`); absent JSON keys are `none`.  The `contactPhone` field is
normalised by the route but never read afterwards, so it is omitted. -/
structure CreateBody where
  contactName : Option String := none
  contact_name : Option String := none
  company : Option String := none
  company_name : Option String := none
  email : Option String := none
  contact_email : Option String := none
  letClientChoose : Option Bool := none
  let_client_choose : Option Bool := none
  extraTrainees : Option Nat := none
  extra_trainees : Option Nat := none
  extraKits : Option Nat := none
  extra_kits : Option Nat := none
  onRoofDay : Option Bool := none
  on_roof_day : Option Bool := none
  tierPrice : Option Rat := none
  tier_price : Option Rat := none
  totalPrice : Option Rat := none
  total_price : Option Rat := none
  proposalNum : Option String := none
  proposal_num : Option String := none
  vimeoUrl : Option String := none
  vimeo_url : Option String := none
  tier : Option String := none
  tracks : Option (List String) := none
  videography : Option Bool := none
deriving Repr

/-- The row written by the `INSERT` of `POST /api/send-proposal`, given the
normalised contact name `n`, company `c` and email `e` (which have passed
validation and are sanitised with `stripHtml` before the insert).  The
remaining values mirror the `VALUES` list: `tier ?? null`, `tierPrice ??
null`, `extraTrainees ?? 0`, `extraKits ?? 0`, `tracks ?? []` (each track
sanitised), `videography ?? false`, `onRoofDay ?? false`, `totalPrice ??
null`, `letClientChoose ?? false`, `vimeoUrl ?? null`; the lifecycle columns
take their table defaults. -/
def mkInsertedProposal (n c e : String) (body : CreateBody) (now : Nat) : Proposal :=
  { proposal_num := body.proposalNum <|> body.proposal_num
    contact_name := stripHtml n
    company := stripHtml c
    email := stripHtml e
    tier := body.tier
    tier_price := body.tierPrice <|> body.tier_price
    extra_trainees := (body.extraTrainees <|> body.extra_trainees).getD 0
    extra_kits := (body.extraKits <|> body.extra_kits).getD 0
    tracks := (body.tracks.map (fun ts => ts.map stripHtml)).getD []
    videography := body.videography.getD false
    on_roof_day := (body.onRoofDay <|> body.on_roof_day).getD false
    total_price := body.totalPrice <|> body.total_price
    let_client_choose := (body.letClientChoose <|> body.let_client_choose).getD false
    vimeo_url := body.vimeoUrl <|> body.vimeo_url
    status := "sent"
    signature_name := none
    signature_data := none
    signed_at := none
    created_at := now
    opened_at := none
    open_count := 0
    payment_status := "unpaid"
    stripe_session_id := none }

/-- The observable effects of `POST /api/send-proposal`, in order. -/
inductive CreateAction
  | insertRow (id : String)
  | sendClientEmail (recipient : String)
  | sendInternalEmail
deriving DecidableEq, Repr

/-- The HTTP outcome of `POST /api/send-proposal`. -/
inductive CreateResult
  | missingFields
  | invalidEmail
  | internalError
  | created (id url : String)
deriving DecidableEq, Repr

structure CreateOutcome where
  state : SystemState
  result : CreateResult
  trace : List CreateAction

/-- The base URL used to build the client-facing proposal link
(`process.env.PROPOSAL_BASE_URL || 'https://roof-mri.com'`). -/
def proposalBaseUrl : String := "https://roof-mri.com"

/-- `POST /api/send-proposal`.  `freshId` stands for the value of
`generateId()` (six random bytes, base64url); `clientEmailOk` and
`internalEmailOk` state whether the two `sgMail.send` calls succeed (a
failed send throws, is caught, and the route answers 500).  A duplicate
`freshId` makes the `INSERT` throw on the primary key, which the catch block
also turns into a 500 with nothing written. -/
def sendProposal (st : SystemState) (body : CreateBody) (freshId : String) (now : Nat)
    (clientEmailOk internalEmailOk : Bool) : CreateOutcome :=
  match body.email <|> body.contact_email,
        body.contactName <|> body.contact_name,
        body.company <|> body.company_name with
  | some e, some n, some c =>
      if e.isEmpty || n.isEmpty || c.isEmpty then
        { state := st, result := .missingFields, trace := [] }
      else if isValidEmail e then
        match st.db freshId with
        | some _ => { state := st, result := .internalError, trace := [.insertRow freshId] }
        | none =>
            let row := mkInsertedProposal n c e body now
            let stIns : SystemState := { st with db := dbInsert st.db freshId row }
            if clientEmailOk then
              if internalEmailOk then
                { state := stIns,
                  result := .created freshId (proposalBaseUrl ++ "/p/" ++ freshId),
                  trace := [.insertRow freshId, .sendClientEmail (stripHtml e), .sendInternalEmail] }
              else
                { state := stIns, result := .internalError,
                  trace := [.insertRow freshId, .sendClientEmail (stripHtml e), .sendInternalEmail] }
            else
              { state := stIns, result := .internalError,
                trace := [.insertRow freshId, .sendClientEmail (stripHtml e)] }
      else { state := st, result := .invalidEmail, trace := [] }
  | _, _, _ => { state := st, result := .missingFields, trace := [] }

/-- The HTTP outcome of `GET /api/proposals/:id`: 404 or the JSON row. -/
inductive ViewResult
  | notFound
  | ok (row : Proposal)
deriving DecidableEq, Repr

structure ViewOutcome where
  state : SystemState
  result : ViewResult

/-- `GET /api/proposals/:id`.  The route first `SELECT`s the row (404 when
absent), then — unless the query string carries `track=false` — runs the
open-tracking `UPDATE`, and finally answers with `rows[0]`, the row as it was
read *before* the update.  `trackQuery` is the raw `req.query.track` value. -/
def getProposal (st : SystemState) (id : String) (trackQuery : Option String) (now : Nat) :
    ViewOutcome :=
  match st.db id with
  | none => { state := st, result := .notFound }
  | some row =>
      if trackQuery = some "false" then
        { state := st, result := .ok row }
      else
        { state := { st with db := dbMapRow st.db id (applyOpen now) }, result := .ok row }

/-- The HTTP outcome of `POST /api/proposals/:id/sign`. -/
inductive SignResult
  | missingData
  | tooLarge
  | notFound
  | conflict
  | signed
  | internalError
deriving DecidableEq, Repr

structure SignOutcome where
  state : SystemState
  result : SignResult
  /-- Whether the conditional `UPDATE ... RETURNING *` matched a row, i.e.
  whether this request performed the sent-to-signed transition. -/
  transitioned : Bool

/-- `POST /api/proposals/:id/sign`.  Body fields are `Option` because absent
JSON keys are `undefined`; `!signatureName || !signatureData` is JavaScript
falsiness, which for strings also rejects the empty string.  The size guard
is `signatureData.length > 500000`.  The write is the single atomic
conditional update `UPDATE ... WHERE id = $3 AND status != 'signed'
RETURNING *`; when it matches no row the route re-reads the row to
distinguish 404 from 409.  `emailOk` tells whether the follow-up
notification send succeeds (a failure is caught and answered as 500, after
the transition has already been persisted). -/
def signProposal (st : SystemState) (id : String)
    (signatureName signatureData : Option String) (now : Nat) (emailOk : Bool) : SignOutcome :=
  match signatureName, signatureData with
  | some n, some d =>
      if n.isEmpty || d.isEmpty then
        { state := st, result := .missingData, transitioned := false }
      else if d.length > 500000 then
        { state := st, result := .tooLarge, transitioned := false }
      else
        match st.db id with
        | none => { state := st, result := .notFound, transitioned := false }
        | some p =>
            if p.status = "signed" then
              { state := st, result := .conflict, transitioned := false }
            else
              { state := { st with db := dbMapRow st.db id (applySign n d now) },
                result := if emailOk then .signed else .internalError,
                transitioned := true }
  | _, _ => { state := st, result := .missingData, transitioned := false }

/-- The HTTP outcome of `POST /api/proposals/:id/checkout`. -/
inductive CheckoutResult
  | notFound
  | preconditionFailed
  | conflictPaid
  | validationError
  | internalError
  | ok (checkoutUrl : String)
deriving DecidableEq, Repr

structure CheckoutOutcome where
  state : SystemState
  result : CheckoutResult
  /-- Whether `stripe.checkout.sessions.create` was invoked. -/
  gatewayCalled : Bool

/-- The redirect URL of a hosted Checkout session, as returned by Stripe. -/
def checkoutUrlOf (sessionId : String) : String :=
  "https://checkout.stripe.com/c/pay/" ++ sessionId

/-- `POST /api/proposals/:id/checkout`.  Guards in source order: 404 when
the row is absent, 400 (precondition) when `status !== 'signed'`, 409 when
`payment_status === 'paid'`, 400 (validation) when the price is absent or
non-positive.  Only then is the Stripe gateway called; `newSessionId` stands
for the id Stripe assigns, and the session is tagged with the proposal id as
correlation metadata (`metadata: { proposal_id }`).  `gatewayOk = false`
models the Stripe call throwing, answered as 500.  The route never writes to
the proposals table. -/
def createCheckout (st : SystemState) (id : String) (newSessionId : String)
    (gatewayOk : Bool) : CheckoutOutcome :=
  match st.db id with
  | none => { state := st, result := .notFound, gatewayCalled := false }
  | some p =>
      if p.status = "signed" then
        if p.payment_status = "paid" then
          { state := st, result := .conflictPaid, gatewayCalled := false }
        else if priceInvalid p.total_price then
          { state := st, result := .validationError, gatewayCalled := false }
        else if gatewayOk then
          { state := { st with sessions := (newSessionId, id) :: st.sessions },
            result := .ok (checkoutUrlOf newSessionId), gatewayCalled := true }
        else
          { state := st, result := .internalError, gatewayCalled := true }
      else
        { state := st, result := .preconditionFailed, gatewayCalled := false }

/-- A Stripe webhook event after JSON parsing: its `type`, the id of
`event.data.object` (the Checkout session) and the optional
`session.metadata?.proposal_id` correlation value. -/
structure StripeEvent where
  type : String
  sessionId : String
  metadataProposalId : Option String
deriving DecidableEq, Repr

/-- The HTTP outcome of `POST /api/stripe-webhook`. -/
inductive WebhookResult
  | badSignature
  | received
deriving DecidableEq, Repr

structure WebhookOutcome where
  state : SystemState
  result : WebhookResult

/-- `POST /api/stripe-webhook`.  `sigOk` is the outcome of
`stripe.webhooks.constructEvent` (signature verification); on failure the
route answers 400 and does nothing.  For a verified
`checkout.session.completed` event with a truthy `metadata.proposal_id` it
runs the unconditional `UPDATE proposals SET payment_status = 'paid',
stripe_session_id = $1 WHERE id = $2` (a no-op on an unknown id) and
acknowledges; every other verified event is acknowledged unchanged. -/
def stripeWebhook (st : SystemState) (sigOk : Bool) (e : StripeEvent) : WebhookOutcome :=
  if sigOk then
    if e.type = "checkout.session.completed" then
      match e.metadataProposalId with
      | some pid =>
          if pid.isEmpty then { state := st, result := .received }
          else
            { state := { st with db := dbMapRow st.db pid (applyPaid e.sessionId) },
              result := .received }
      | none => { state := st, result := .received }
    else { state := st, result := .received }
  else { state := st, result := .badSignature }

/-- The trainee base of a tier, from `buildEmail`:
`tier === 'professional' ? 3 : tier === 'regional' ? 10 : 25`. -/
def traineeBase (tier : Option String) : Nat :=
  if tier = some "professional" then 3 else if tier = some "regional" then 10 else 25

/-- The kit base of a tier, from `buildEmail`:
`tier === 'professional' ? 1 : tier === 'regional' ? 2 : 4`. -/
def kitBase (tier : Option String) : Nat :=
  if tier = some "professional" then 1 else if tier = some "regional" then 2 else 4

/-- `totalTrainees = traineeCount + (extraTrainees || 0)` from `buildEmail`
(the branch rendered when the client is not left to choose a tier). -/
def totalTrainees (tier : Option String) (extraTrainees : Option Nat) : Nat :=
  traineeBase tier + extraTrainees.getD 0

/-- `totalKits = kitCount + (extraKits || 0)` from `buildEmail`. -/
def totalKits (tier : Option String) (extraKits : Option Nat) : Nat :=
  kitBase tier + extraKits.getD 0

/-- One server request, as a relation between global states.  Timestamps,
generated ids, request bodies and the success of outbound calls are
existential parameters of the step.  The `webhook` step carries the
environment assumption backing the spec's "Paid is only reachable from
Signed by policy": a signature-verified `checkout.session.completed` event
with a usable `proposal_id` correlation value refers to a Checkout session
this server created (Stripe signs and completes only sessions created on
this account, and only `createCheckout` attaches `proposal_id` metadata) —
or else its correlation id is unknown to the store, making the update a
no-op. -/
inductive Step : SystemState → SystemState → Prop
  | create (st : SystemState) (body : CreateBody) (freshId : String) (now : Nat)
      (ok1 ok2 : Bool) :
      Step st (sendProposal st body freshId now ok1 ok2).state
  | view (st : SystemState) (id : String) (trackQuery : Option String) (now : Nat) :
      Step st (getProposal st id trackQuery now).state
  | sign (st : SystemState) (id : String) (n d : Option String) (now : Nat) (emailOk : Bool) :
      Step st (signProposal st id n d now emailOk).state
  | checkout (st : SystemState) (id sid : String) (gatewayOk : Bool) :
      Step st (createCheckout st id sid gatewayOk).state
  | webhook (st : SystemState) (sigOk : Bool) (e : StripeEvent)
      (henv : sigOk = true → e.type = "checkout.session.completed" →
        ∀ pid, e.metadataProposalId = some pid → pid.isEmpty = false →
        (e.sessionId, pid) ∈ st.sessions ∨ st.db pid = none) :
      Step st (stripeWebhook st sigOk e).state

/-- The states reachable from process start through server requests. -/
inductive Reachable : SystemState → Prop
  | init : Reachable initState
  | step {s t : SystemState} : Reachable s → Step s t → Reachable t

/-- The inductive invariant behind claim C8: every paid row is signed, and
every created Checkout session points at an existing signed row. -/
def PaidInv (st : SystemState) : Prop :=
  (∀ id p, st.db id = some p → p.payment_status = "paid" → p.status = "signed") ∧
  (∀ sid pid, (sid, pid) ∈ st.sessions → ∃ p, st.db pid = some p ∧ p.status = "signed")

/-- A concrete create request body used by the witness theorems. -/
def sampleBody : CreateBody :=
  { contactName := some "Jane Doe", company := some "Acme",
    email := some "a@b.com", tier := some "professional", totalPrice := some 100 }

/-- The row `sampleBody` inserts (at time 0). -/
def sampleRow : Proposal := mkInsertedProposal "Jane Doe" "Acme" "a@b.com" sampleBody 0

/-- A store holding `sampleRow` (freshly created, unsigned, unpaid) at `p1`. -/
def sampleState : SystemState :=
  { db := dbInsert (fun _ => none) "p1" sampleRow, sessions := [] }

/-- A verified completed-checkout event for session `cs_first` on `p1`. -/
def eventFirst : StripeEvent :=
  { type := "checkout.session.completed", sessionId := "cs_first",
    metadataProposalId := some "p1" }

/-- A verified completed-checkout event for a different session `cs_second`
on the same proposal `p1`. -/
def eventSecond : StripeEvent :=
  { type := "checkout.session.completed", sessionId := "cs_second",
    metadataProposalId := some "p1" }

/-- A store where `p1` is signed and already paid through `cs_first`. -/
def paidState : SystemState :=
  { db := dbInsert (fun _ => none) "p1"
      (applyPaid "cs_first" (applySign "Jane Doe" "sig" 5 sampleRow)),
    sessions := [("cs_first", "p1")] }

/-- Reachable chain for the C8 witness: create `p1`. -/
def chainS1 : SystemState := (sendProposal initState sampleBody "p1" 0 true true).state

/-- Reachable chain: then sign it. -/
def chainS2 : SystemState :=
  (signProposal chainS1 "p1" (some "Jane Doe") (some "sig") 1 true).state

/-- Reachable chain: then create a Checkout session `cs_1` for it. -/
def chainS3 : SystemState := (createCheckout chainS2 "p1" "cs_1" true).state

/-- The completion event Stripe delivers for session `cs_1`. -/
def chainEvent : StripeEvent :=
  { type := "checkout.session.completed", sessionId := "cs_1",
    metadataProposalId := some "p1" }

/-- Reachable chain: finally the payment-confirmation webhook for `cs_1`. -/
def chainS4 : SystemState := (stripeWebhook chainS3 true chainEvent).state

/-- The row stored at `p1` in `chainS4`. -/
def chainRow : Proposal := applyPaid "cs_1" (applySign "Jane Doe" "sig" 1 sampleRow)

/-- Effect of the create route on the state: either nothing was written, or
the fresh row was inserted at `freshId`, which was previously vacant. -/
theorem sendProposal_state (st : SystemState) (body : CreateBody) (freshId : String)
    (now : Nat) (ok1 ok2 : Bool) :
    (sendProposal st body freshId now ok1 ok2).state = st ∨
    (st.db freshId = none ∧ ∃ n c e,
      (sendProposal st body freshId now ok1 ok2).state =
        { st with db := dbInsert st.db freshId (mkInsertedProposal n c e body now) }) := by
  unfold sendProposal
  repeat' split
  all_goals first
    | (left; rfl)
    | (right; refine ⟨?_, _, _, _, rfl⟩; assumption)

/-- Effect of the view route on the state: unchanged, or the open-tracking
update applied to the requested id. -/
theorem getProposal_state (st : SystemState) (id : String) (trackQuery : Option String)
    (now : Nat) :
    (getProposal st id trackQuery now).state = st ∨
    (getProposal st id trackQuery now).state =
      { st with db := dbMapRow st.db id (applyOpen now) } := by
  unfold getProposal
  repeat' split
  all_goals first | (left; rfl) | (right; rfl)

/-- Effect of the sign route on the state: unchanged, or the sign update
applied to a row that existed and was not yet signed. -/
theorem signProposal_state (st : SystemState) (id : String)
    (n d : Option String) (now : Nat) (emailOk : Bool) :
    (signProposal st id n d now emailOk).state = st ∨
    (∃ p nm dt, st.db id = some p ∧ p.status ≠ "signed" ∧ n = some nm ∧ d = some dt ∧
      (signProposal st id n d now emailOk).state =
        { st with db := dbMapRow st.db id (applySign nm dt now) }) := by
  unfold signProposal
  repeat' split
  all_goals first
    | (left; rfl)
    | (right; exact ⟨_, _, _, by assumption, by assumption, rfl, rfl, rfl⟩)

/-- The checkout route never writes to the proposals table, and it creates a
session only for an existing row with `status = signed` that is not yet
paid. -/
theorem createCheckout_state (st : SystemState) (id sid : String) (gatewayOk : Bool) :
    (createCheckout st id sid gatewayOk).state.db = st.db ∧
    ((createCheckout st id sid gatewayOk).state.sessions = st.sessions ∨
     (∃ p, st.db id = some p ∧ p.status = "signed" ∧ p.payment_status ≠ "paid" ∧
       (createCheckout st id sid gatewayOk).state.sessions = (sid, id) :: st.sessions)) := by
  unfold createCheckout
  repeat' split
  all_goals first
    | (exact ⟨rfl, Or.inl rfl⟩)
    | (exact ⟨rfl, Or.inr ⟨_, by assumption, by assumption, by assumption, rfl⟩⟩)

/-- Effect of the webhook route on the state: unchanged, or the payment
update applied at the correlation id of a verified completed event. -/
theorem stripeWebhook_state (st : SystemState) (sigOk : Bool) (e : StripeEvent) :
    (stripeWebhook st sigOk e).state = st ∨
    (∃ pid, sigOk = true ∧ e.type = "checkout.session.completed" ∧
      e.metadataProposalId = some pid ∧ pid.isEmpty = false ∧
      (stripeWebhook st sigOk e).state =
        { st with db := dbMapRow st.db pid (applyPaid e.sessionId) }) := by
  unfold stripeWebhook
  repeat' split
  all_goals first
    | (left; rfl)
    | (right; refine ⟨_, ?_, ?_, ?_, ?_, rfl⟩ <;>
        first | assumption | (simp only [Bool.not_eq_true] at *; assumption))

/-- Row evolution under one server request: the row at any key is unchanged,
freshly inserted (into a vacant key), open-tracked, signed (only from a
not-yet-signed row), or marked paid (only through a session this server
created for that proposal). -/
theorem step_db_evo {st st' : SystemState} (h : Step st st') (k : String) :
    st'.db k = st.db k ∨
    (st.db k = none ∧ ∃ n c e body now, st'.db k = some (mkInsertedProposal n c e body now)) ∨
    (∃ p now, st.db k = some p ∧ st'.db k = some (applyOpen now p)) ∨
    (∃ p nm dt now, st.db k = some p ∧ p.status ≠ "signed" ∧
      st'.db k = some (applySign nm dt now p)) ∨
    (∃ p sid, st.db k = some p ∧ st'.db k = some (applyPaid sid p) ∧
      (sid, k) ∈ st.sessions) := by
  cases h with
  | create body freshId now ok1 ok2 =>
      rcases sendProposal_state st body freshId now ok1 ok2 with heq | ⟨hfresh, n, c, e, heq⟩
      · exact Or.inl (by rw [heq])
      · rw [heq]
        by_cases hk : k = freshId
        · subst hk
          exact Or.inr (Or.inl ⟨hfresh, n, c, e, body, now, by simp [dbInsert]⟩)
        · exact Or.inl (by simp [dbInsert, hk])
  | view id trackQuery now =>
      rcases getProposal_state st id trackQuery now with heq | heq
      · exact Or.inl (by rw [heq])
      · rw [heq]
        by_cases hk : k = id
        · subst hk
          cases hrow : st.db k with
          | none => exact Or.inl (by simp [dbMapRow, hrow])
          | some p =>
              exact Or.inr (Or.inr (Or.inl ⟨p, now, rfl, by simp [dbMapRow, hrow]⟩))
        · exact Or.inl (by simp [dbMapRow, hk])
  | sign id n d now emailOk =>
      rcases signProposal_state st id n d now emailOk with heq | ⟨p, nm, dt, hrow, hns, _, _, heq⟩
      · exact Or.inl (by rw [heq])
      · rw [heq]
        by_cases hk : k = id
        · subst hk
          exact Or.inr (Or.inr (Or.inr (Or.inl
            ⟨p, nm, dt, now, hrow, hns, by simp [dbMapRow, hrow]⟩)))
        · exact Or.inl (by simp [dbMapRow, hk])
  | checkout id sid gatewayOk =>
      exact Or.inl (by rw [(createCheckout_state st id sid gatewayOk).1])
  | webhook sigOk e henv =>
      rcases stripeWebhook_state st sigOk e with heq | ⟨pid, hsig, htype, hpid, hne, heq⟩
      · exact Or.inl (by rw [heq])
      · rw [heq]
        by_cases hk : k = pid
        · subst hk
          cases hrow : st.db k with
          | none => exact Or.inl (by simp [dbMapRow, hrow])
          | some p =>
              rcases henv hsig htype k hpid hne with hmem | hnone
              · exact Or.inr (Or.inr (Or.inr (Or.inr
                  ⟨p, e.sessionId, rfl, by simp [dbMapRow, hrow], hmem⟩)))
              · rw [hrow] at hnone; cases hnone
        · exact Or.inl (by simp [dbMapRow, hk])

/-- Session-registry evolution under one server request: unchanged, or one
session appended by the checkout route for a row that was signed and not yet
paid, the store being untouched in that case. -/
theorem step_sessions_evo {st st' : SystemState} (h : Step st st') :
    st'.sessions = st.sessions ∨
    (∃ sid id p, st.db id = some p ∧ p.status = "signed" ∧ p.payment_status ≠ "paid" ∧
      st'.sessions = (sid, id) :: st.sessions ∧ st'.db = st.db) := by
  cases h with
  | create body freshId now ok1 ok2 =>
      rcases sendProposal_state st body freshId now ok1 ok2 with heq | ⟨_, _, _, _, heq⟩ <;>
        exact Or.inl (by rw [heq])
  | view id trackQuery now =>
      rcases getProposal_state st id trackQuery now with heq | heq <;>
        exact Or.inl (by rw [heq])
  | sign id n d now emailOk =>
      rcases signProposal_state st id n d now emailOk with heq | ⟨_, _, _, _, _, _, _, heq⟩ <;>
        exact Or.inl (by rw [heq])
  | checkout id sid gatewayOk =>
      obtain ⟨hdb, hsess | ⟨p, hrow, hsig, hpaid, hsess⟩⟩ := createCheckout_state st id sid gatewayOk
      · exact Or.inl hsess
      · exact Or.inr ⟨sid, id, p, hrow, hsig, hpaid, hsess, hdb⟩
  | webhook sigOk e henv =>
      rcases stripeWebhook_state st sigOk e with heq | ⟨_, _, _, _, _, heq⟩ <;>
        exact Or.inl (by rw [heq])

/-- Per-row monotonicity under one server request: a stored row never
disappears, its `status` either stays or advances from a not-yet-signed
value to `signed`, and its `payment_status` either stays or becomes
`paid`. -/
theorem step_row_advance {st st' : SystemState} (h : Step st st') (k : String)
    (p : Proposal) (hk : st.db k = some p) :
    ∃ q, st'.db k = some q ∧
      (q.status = p.status ∨ (p.status ≠ "signed" ∧ q.status = "signed")) ∧
      (q.payment_status = p.payment_status ∨ q.payment_status = "paid") ∧
      (q.signature_name = p.signature_name ∧ q.signature_data = p.signature_data ∨
        (p.status ≠ "signed" ∧ q.status = "signed")) := by
  rcases step_db_evo h k with heq | ⟨hnone, _⟩ | ⟨q, now, hq, hrow⟩ |
      ⟨q, nm, dt, now, hq, hns, hrow⟩ | ⟨q, sid, hq, hrow, _⟩
  · exact ⟨p, heq.trans hk, Or.inl rfl, Or.inl rfl, Or.inl ⟨rfl, rfl⟩⟩
  · rw [hk] at hnone; cases hnone
  · rw [hk] at hq; cases hq
    exact ⟨_, hrow, Or.inl rfl, Or.inl rfl, Or.inl ⟨rfl, rfl⟩⟩
  · rw [hk] at hq; cases hq
    exact ⟨_, hrow, Or.inr ⟨hns, rfl⟩, Or.inl rfl, Or.inr ⟨hns, rfl⟩⟩
  · rw [hk] at hq; cases hq
    exact ⟨_, hrow, Or.inl rfl, Or.inr rfl, Or.inl ⟨rfl, rfl⟩⟩

theorem paidInv_init : PaidInv initState := by
  constructor
  · intro id p hrow
    simp [initState] at hrow
  · intro sid pid hmem
    simp [initState] at hmem

theorem paidInv_step {st st' : SystemState} (hinv : PaidInv st) (h : Step st st') :
    PaidInv st' := by
  obtain ⟨hdb, hsess⟩ := hinv
  constructor
  · intro id p hrow hpaid
    rcases step_db_evo h id with heq | ⟨hnone, n, c, e, body, now, hins⟩ |
        ⟨q, now, hq, hrow2⟩ | ⟨q, nm, dt, now, hq, hns, hrow2⟩ | ⟨q, sid, hq, hrow2, hmem⟩
    · exact hdb id p (heq ▸ hrow) hpaid
    · rw [hins] at hrow
      cases hrow
      simp [mkInsertedProposal] at hpaid
    · rw [hrow2] at hrow
      cases hrow
      have : q.payment_status = "paid" := by simpa [applyOpen] using hpaid
      simpa [applyOpen] using hdb id q hq this
    · rw [hrow2] at hrow
      cases hrow
      simp [applySign]
    · rw [hrow2] at hrow
      cases hrow
      obtain ⟨r, hr, hrs⟩ := hsess sid id hmem
      rw [hq] at hr
      cases hr
      simpa [applyPaid] using hrs
  · intro sid pid hmem
    rcases step_sessions_evo h with hse | ⟨sid2, id2, q, hq, hqs, _, hse, hdbeq⟩
    · rw [hse] at hmem
      obtain ⟨p, hp, hps⟩ := hsess sid pid hmem
      obtain ⟨q, hq2, hqstat, -, -⟩ := step_row_advance h pid p hp
      refine ⟨q, hq2, ?_⟩
      rcases hqstat with heq2 | ⟨-, heq2⟩
      · exact heq2.trans hps
      · exact heq2
    · rw [hse] at hmem
      rw [hdbeq]
      rcases List.mem_cons.mp hmem with heq2 | hmem2
      · rw [Prod.mk.injEq] at heq2
        obtain ⟨h1, h2⟩ := heq2
        subst h1; subst h2
        exact ⟨q, hq, hqs⟩
      · exact hsess sid pid hmem2

/-- Every reachable state satisfies the paid-implies-signed invariant. -/
theorem reachable_paidInv {st : SystemState} (h : Reachable st) : PaidInv st := by
  induction h with
  | init => exact paidInv_init
  | step _ hstep ih => exact paidInv_step ih hstep

/-- Claim C4: CreatePaymentSession(id): for every stored proposal, if status
is not `signed` the request fails with PreconditionFailed; otherwise if
payment_status is `paid` it fails with Conflict; otherwise if total_price is
absent or nonpositive it fails with ValidationError; and in each of these
failure cases no call to the payment gateway is made and no stored field of
the proposal changes (the whole state is unchanged). -/
theorem c4_checkout_guards (st : SystemState) (id sid : String) (gok : Bool)
    (p : Proposal) (hrow : st.db id = some p) :
    (p.status ≠ "signed" →
      (createCheckout st id sid gok).result = CheckoutResult.preconditionFailed ∧
      (createCheckout st id sid gok).gatewayCalled = false ∧
      (createCheckout st id sid gok).state = st) ∧
    (p.status = "signed" → p.payment_status = "paid" →
      (createCheckout st id sid gok).result = CheckoutResult.conflictPaid ∧
      (createCheckout st id sid gok).gatewayCalled = false ∧
      (createCheckout st id sid gok).state = st) ∧
    (p.status = "signed" → p.payment_status ≠ "paid" → priceInvalid p.total_price = true →
      (createCheckout st id sid gok).result = CheckoutResult.validationError ∧
      (createCheckout st id sid gok).gatewayCalled = false ∧
      (createCheckout st id sid gok).state = st) := by
  refine ⟨fun hns => ?_, fun hs hp => ?_, fun hs hp hpr => ?_⟩ <;>
    simp [createCheckout, hrow, *]

/-- Claim C4 witness: checkout on the freshly created (unsigned) `p1`. -/
theorem c4_witness :
    (createCheckout sampleState "p1" "cs_x" true).result = CheckoutResult.preconditionFailed ∧
    (createCheckout sampleState "p1" "cs_x" true).gatewayCalled = false ∧
    (createCheckout sampleState "p1" "cs_x" true).state = sampleState :=
  (c4_checkout_guards sampleState "p1" "cs_x" true sampleRow (by decide)).1 (by decide)

/-- Claim C6: a signature-verified webhook event whose correlation id is
missing (no or empty `metadata.proposal_id`) or refers to no stored proposal
is acknowledged with the success response, and no proposal record is
mutated. -/
theorem c6_unknown_correlation_ack (st : SystemState) (e : StripeEvent)
    (h : e.metadataProposalId = none ∨
      ∃ pid, e.metadataProposalId = some pid ∧ (pid.isEmpty = true ∨ st.db pid = none)) :
    (stripeWebhook st true e).result = WebhookResult.received ∧
    (∀ k, (stripeWebhook st true e).state.db k = st.db k) ∧
    (stripeWebhook st true e).state.sessions = st.sessions := by
  by_cases ht : e.type = "checkout.session.completed"
  · rcases h with hnone | ⟨pid, hpid, hemp | hunknown⟩
    · simp [stripeWebhook, ht, hnone]
    · simp [stripeWebhook, ht, hpid, hemp]
    · by_cases hemp2 : pid.isEmpty
      · simp [stripeWebhook, ht, hpid, hemp2]
      · refine ⟨by simp [stripeWebhook, ht, hpid, hemp2], fun k => ?_,
          by simp [stripeWebhook, ht, hpid, hemp2]⟩
        by_cases hk : k = pid
        · subst hk
          simp [stripeWebhook, ht, hpid, hemp2, dbMapRow, hunknown]
        · simp [stripeWebhook, ht, hpid, hemp2, dbMapRow, hk]
  · simp [stripeWebhook, ht]

/-- Claim C6 witness: a verified completed event whose correlation id
`ghost` is unknown to the store. -/
theorem c6_witness :
    (stripeWebhook sampleState true
      { type := "checkout.session.completed", sessionId := "cs_g",
        metadataProposalId := some "ghost" }).result = WebhookResult.received ∧
    (stripeWebhook sampleState true
      { type := "checkout.session.completed", sessionId := "cs_g",
        metadataProposalId := some "ghost" }).state.db "p1" = sampleState.db "p1" ∧
    (stripeWebhook sampleState true
      { type := "checkout.session.completed", sessionId := "cs_g",
        metadataProposalId := some "ghost" }).state.db "ghost" = sampleState.db "ghost" := by
  have h := c6_unknown_correlation_ack sampleState
    { type := "checkout.session.completed", sessionId := "cs_g",
      metadataProposalId := some "ghost" }
    (Or.inr ⟨"ghost", rfl, Or.inr (by decide)⟩)
  exact ⟨h.1, h.2.1 "p1", h.2.1 "ghost"⟩

/-- Claim C9: for a proposal rendered with a chosen tier, the derived
trainee and kit totals are the tier base plus the extras, with bases
professional 3 trainees / 1 kit, regional 10 / 2, enterprise 25 / 4; in
particular professional with no extras renders 3 trainees and 1 kit, and
professional with 2 extra trainees renders 5 trainees. -/
theorem c9_derived_totals :
    (∀ e, totalTrainees (some "professional") (some e) = 3 + e) ∧
    (∀ e, totalTrainees (some "regional") (some e) = 10 + e) ∧
    (∀ e, totalTrainees (some "enterprise") (some e) = 25 + e) ∧
    (∀ k, totalKits (some "professional") (some k) = 1 + k) ∧
    (∀ k, totalKits (some "regional") (some k) = 2 + k) ∧
    (∀ k, totalKits (some "enterprise") (some k) = 4 + k) ∧
    totalTrainees (some "professional") (some 0) = 3 ∧
    totalKits (some "professional") (some 0) = 1 ∧
    totalTrainees (some "professional") (some 2) = 5 := by
  refine ⟨fun e => ?_, fun e => ?_, fun e => ?_, fun k => ?_, fun k => ?_, fun k => ?_,
    ?_, ?_, ?_⟩ <;> simp [totalTrainees, totalKits, traineeBase, kitBase]

/-- Claim C10: the view endpoint answers with the row as it was read before
open tracking is applied, so the very first tracked view of a fresh
proposal reports `open_count = 0` and `opened_at = null` in its response
while the stored record simultaneously becomes `open_count = 1` with
`opened_at` set. -/
theorem c10_view_reports_prior_row (st : SystemState) (id : String) (p : Proposal)
    (tq : Option String) (now : Nat) (hrow : st.db id = some p) :
    (getProposal st id tq now).result = ViewResult.ok p ∧
    (p.open_count = 0 → p.opened_at = none → tq ≠ some "false" →
      (getProposal st id tq now).state.db id = some (applyOpen now p) ∧
      (applyOpen now p).open_count = 1 ∧ (applyOpen now p).opened_at = some now) := by
  constructor
  · by_cases htq : tq = some "false" <;> simp [getProposal, hrow, htq]
  · intro hc ho htq
    refine ⟨?_, by simp [applyOpen, hc], by simp [applyOpen, ho]⟩
    simp [getProposal, hrow, htq, dbMapRow]

/-- Claim C10 witness: first tracked view of the fresh `p1`. -/
theorem c10_witness :
    (getProposal sampleState "p1" none 7).result = ViewResult.ok sampleRow ∧
    (getProposal sampleState "p1" none 7).state.db "p1" = some (applyOpen 7 sampleRow) ∧
    (applyOpen 7 sampleRow).open_count = 1 ∧ (applyOpen 7 sampleRow).opened_at = some 7 := by
  have h := c10_view_reports_prior_row sampleState "p1" sampleRow none 7 (by decide)
  exact ⟨h.1, h.2 (by decide) (by decide) (by decide)⟩

/-- The webhook payment update is idempotent on a row. -/
theorem applyPaid_idem (sid : String) (p : Proposal) :
    applyPaid sid (applyPaid sid p) = applyPaid sid p := rfl

/-- Claim C2: applying the verified payment-confirmation webhook twice with
the same checkout-completed event leaves the proposal record exactly as the
first application wrote it — `payment_status = paid` and
`stripe_session_id` equal to the event's session id — and the second
application changes nothing in the state. -/
theorem c2_webhook_idempotent (st : SystemState) (e : StripeEvent) (pid : String)
    (p : Proposal) (htype : e.type = "checkout.session.completed")
    (hpid : e.metadataProposalId = some pid) (hne : pid.isEmpty = false)
    (hrow : st.db pid = some p) :
    (stripeWebhook st true e).state.db pid = some (applyPaid e.sessionId p) ∧
    (applyPaid e.sessionId p).payment_status = "paid" ∧
    (applyPaid e.sessionId p).stripe_session_id = some e.sessionId ∧
    (stripeWebhook (stripeWebhook st true e).state true e).state =
      (stripeWebhook st true e).state := by
  have h1 : (stripeWebhook st true e).state =
      { st with db := dbMapRow st.db pid (applyPaid e.sessionId) } := by
    simp [stripeWebhook, htype, hpid, hne]
  have hrow1 : dbMapRow st.db pid (applyPaid e.sessionId) pid =
      some (applyPaid e.sessionId p) := by
    simp [dbMapRow, hrow]
  refine ⟨by rw [h1]; exact hrow1, rfl, rfl, ?_⟩
  rw [h1]
  have h2 : (stripeWebhook { st with db := dbMapRow st.db pid (applyPaid e.sessionId) }
      true e).state =
      { st with db := dbMapRow (dbMapRow st.db pid (applyPaid e.sessionId)) pid (applyPaid e.sessionId) } := by
    simp [stripeWebhook, htype, hpid, hne]
  rw [h2]
  congr 1
  funext k
  by_cases hk : k = pid
  · subst hk
    simp [dbMapRow, hrow, applyPaid_idem]
  · simp [dbMapRow, hk]

/-- Claim C2 witness: the `cs_first` completion event applied twice to the
fresh store. -/
theorem c2_witness :
    (stripeWebhook sampleState true eventFirst).state.db "p1" =
      some (applyPaid "cs_first" sampleRow) ∧
    (applyPaid "cs_first" sampleRow).payment_status = "paid" ∧
    (applyPaid "cs_first" sampleRow).stripe_session_id = some "cs_first" ∧
    (stripeWebhook (stripeWebhook sampleState true eventFirst).state true eventFirst).state =
      (stripeWebhook sampleState true eventFirst).state :=
  c2_webhook_idempotent sampleState eventFirst "p1" sampleRow rfl rfl (by decide) (by decide)

/-- Claim C3 counterexample: the stored `stripe_session_id` is *not*
write-once.  In `paidState`, proposal `p1` is already paid with session id
`cs_first`; a second verified completed event carrying the different
session id `cs_second` for the same proposal overwrites the stored value,
contradicting "once a session id has been stored, no later operation
replaces it with a different value". -/
theorem c3_counterexample :
    (paidState.db "p1").map Proposal.stripe_session_id = some (some "cs_first") ∧
    ((stripeWebhook paidState true eventSecond).state.db "p1").map
      Proposal.stripe_session_id = some (some "cs_second") ∧
    some "cs_second" ≠ some "cs_first" := by decide

/-- Claim C3 amended: `payment_status` only ever advances toward `paid` and
never moves back under any operation; but the webhook records the session
id of *each* confirmed event, so a later confirmed event with a different
session id replaces the stored `stripe_session_id` rather than leaving it
unchanged. -/
theorem c3_amended (st : SystemState) (e : StripeEvent) (pid : String) (p : Proposal)
    (htype : e.type = "checkout.session.completed")
    (hpid : e.metadataProposalId = some pid) (hne : pid.isEmpty = false)
    (hrow : st.db pid = some p) :
    (∀ s t, Step s t → ∀ k q, s.db k = some q →
      ∃ r, t.db k = some r ∧
        (r.payment_status = q.payment_status ∨ r.payment_status = "paid")) ∧
    (stripeWebhook st true e).state.db pid = some (applyPaid e.sessionId p) ∧
    (applyPaid e.sessionId p).stripe_session_id = some e.sessionId := by
  refine ⟨fun s t hstep k q hq => ?_, ?_, rfl⟩
  · obtain ⟨r, hr, -, hpay, -⟩ := step_row_advance hstep k q hq
    exact ⟨r, hr, hpay⟩
  · have h1 : (stripeWebhook st true e).state =
        { st with db := dbMapRow st.db pid (applyPaid e.sessionId) } := by
      simp [stripeWebhook, htype, hpid, hne]
    rw [h1]
    simp [dbMapRow, hrow]

/-- Claim C3 witness: the overwriting event `cs_second` applied to the
already-paid store. -/
theorem c3_witness :
    (stripeWebhook paidState true eventSecond).state.db "p1" =
      some (applyPaid "cs_second"
        (applyPaid "cs_first" (applySign "Jane Doe" "sig" 5 sampleRow))) ∧
    (applyPaid "cs_second"
      (applyPaid "cs_first" (applySign "Jane Doe" "sig" 5 sampleRow))).stripe_session_id =
      some "cs_second" := by
  have h := c3_amended paidState eventSecond "p1"
    (applyPaid "cs_first" (applySign "Jane Doe" "sig" 5 sampleRow)) rfl rfl (by decide) (by decide)
  exact ⟨h.2.1, h.2.2⟩

/-- Claim C5 counterexample: the first tracked view of a freshly created
proposal does *not* report `open_count = 1` in its response: the response
is the row read before the tracking update, with `open_count = 0`, even
though the stored record is updated to `open_count = 1`. -/
theorem c5_counterexample :
    (getProposal sampleState "p1" none 7).result = ViewResult.ok sampleRow ∧
    sampleRow.open_count = 0 ∧ (0 : Nat) ≠ 1 ∧
    (getProposal sampleState "p1" none 7).state.db "p1" = some (applyOpen 7 sampleRow) ∧
    (applyOpen 7 sampleRow).open_count = 1 := by decide

/-- Claim C5 amended: with tracking enabled, the first tracked view of a
fresh proposal sets `opened_at` (exactly once, at first read) and sets the
stored `open_count` to 1, but its response reports the pre-update row, so
its reported `open_count` is 0; a second tracked view leaves `opened_at`
unchanged and increments the stored `open_count` to 2; a view with tracking
disabled changes neither `opened_at` nor `open_count`. -/
theorem c5_view_tracking (st : SystemState) (id : String) (p : Proposal)
    (tq1 tq2 : Option String) (t1 t2 t3 : Nat)
    (hrow : st.db id = some p) (hc : p.open_count = 0) (ho : p.opened_at = none)
    (htq1 : tq1 ≠ some "false") (htq2 : tq2 ≠ some "false") :
    (getProposal st id tq1 t1).result = ViewResult.ok p ∧
    p.open_count = 0 ∧
    (getProposal st id tq1 t1).state.db id = some (applyOpen t1 p) ∧
    (applyOpen t1 p).open_count = 1 ∧ (applyOpen t1 p).opened_at = some t1 ∧
    (getProposal (getProposal st id tq1 t1).state id tq2 t2).state.db id =
      some (applyOpen t2 (applyOpen t1 p)) ∧
    (applyOpen t2 (applyOpen t1 p)).open_count = 2 ∧
    (applyOpen t2 (applyOpen t1 p)).opened_at = some t1 ∧
    (getProposal st id (some "false") t3).state = st := by
  have h1 : (getProposal st id tq1 t1).state =
      { st with db := dbMapRow st.db id (applyOpen t1) } := by
    simp [getProposal, hrow, htq1]
  have hrow1 : dbMapRow st.db id (applyOpen t1) id = some (applyOpen t1 p) := by
    simp [dbMapRow, hrow]
  refine ⟨by simp [getProposal, hrow, htq1], hc,
    by rw [h1]; exact hrow1,
    by simp [applyOpen, hc], by simp [applyOpen, ho], ?_,
    by simp [applyOpen, hc], by simp [applyOpen, ho],
    by simp [getProposal, hrow]⟩
  rw [h1]
  have h2 : (getProposal { st with db := dbMapRow st.db id (applyOpen t1) } id tq2 t2).state =
      { st with db := dbMapRow (dbMapRow st.db id (applyOpen t1)) id (applyOpen t2) } := by
    simp [getProposal, hrow1, htq2]
  rw [h2]
  simp [dbMapRow, hrow]

/-- Claim C5 witness: two tracked views then one untracked view of the
fresh `p1`. -/
theorem c5_witness :
    (getProposal sampleState "p1" none 7).result = ViewResult.ok sampleRow ∧
    sampleRow.open_count = 0 ∧
    (getProposal sampleState "p1" none 7).state.db "p1" = some (applyOpen 7 sampleRow) ∧
    (applyOpen 7 sampleRow).open_count = 1 ∧ (applyOpen 7 sampleRow).opened_at = some 7 ∧
    (getProposal (getProposal sampleState "p1" none 7).state "p1" none 8).state.db "p1" =
      some (applyOpen 8 (applyOpen 7 sampleRow)) ∧
    (applyOpen 8 (applyOpen 7 sampleRow)).open_count = 2 ∧
    (applyOpen 8 (applyOpen 7 sampleRow)).opened_at = some 7 ∧
    (getProposal sampleState "p1" (some "false") 9).state = sampleState :=
  c5_view_tracking sampleState "p1" sampleRow none none 7 8 9
    (by decide) (by decide) (by decide) (by decide) (by decide)

/-- Claim C7: during Create, for every valid input (required fields present
and nonempty after normalisation, email well-formed) and a fresh id, the
proposal row is persisted — and the insert is the first action of the
request, preceding both notification sends — and a failure of either
notification dispatch leaves the inserted row stored exactly as written
while the failure is reported as the 500 response. -/
theorem c7_create_durable_before_notification (st : SystemState) (body : CreateBody)
    (freshId : String) (now : Nat) (ok1 ok2 : Bool) (e n c : String)
    (hem : (body.email <|> body.contact_email) = some e)
    (hcn : (body.contactName <|> body.contact_name) = some n)
    (hco : (body.company <|> body.company_name) = some c)
    (hne : e.isEmpty = false) (hnn : n.isEmpty = false) (hnc : c.isEmpty = false)
    (hvalid : isValidEmail e = true) (hfresh : st.db freshId = none) :
    (sendProposal st body freshId now ok1 ok2).state.db freshId =
      some (mkInsertedProposal n c e body now) ∧
    (∃ rest, (sendProposal st body freshId now ok1 ok2).trace =
        CreateAction.insertRow freshId :: rest ∧
      ∀ a ∈ rest, a = CreateAction.sendClientEmail (stripHtml e) ∨
        a = CreateAction.sendInternalEmail) ∧
    ((ok1 = false ∨ ok2 = false) →
      (sendProposal st body freshId now ok1 ok2).result = CreateResult.internalError) := by
  cases ok1 <;> cases ok2
  case false.false =>
    exact ⟨by simp [sendProposal, hem, hcn, hco, hne, hnn, hnc, hvalid, hfresh, dbInsert],
      ⟨[CreateAction.sendClientEmail (stripHtml e)],
        by simp [sendProposal, hem, hcn, hco, hne, hnn, hnc, hvalid, hfresh], by simp⟩,
      fun _ => by simp [sendProposal, hem, hcn, hco, hne, hnn, hnc, hvalid, hfresh]⟩
  case false.true =>
    exact ⟨by simp [sendProposal, hem, hcn, hco, hne, hnn, hnc, hvalid, hfresh, dbInsert],
      ⟨[CreateAction.sendClientEmail (stripHtml e)],
        by simp [sendProposal, hem, hcn, hco, hne, hnn, hnc, hvalid, hfresh], by simp⟩,
      fun _ => by simp [sendProposal, hem, hcn, hco, hne, hnn, hnc, hvalid, hfresh]⟩
  case true.false =>
    exact ⟨by simp [sendProposal, hem, hcn, hco, hne, hnn, hnc, hvalid, hfresh, dbInsert],
      ⟨[CreateAction.sendClientEmail (stripHtml e), CreateAction.sendInternalEmail],
        by simp [sendProposal, hem, hcn, hco, hne, hnn, hnc, hvalid, hfresh], by simp⟩,
      fun _ => by simp [sendProposal, hem, hcn, hco, hne, hnn, hnc, hvalid, hfresh]⟩
  case true.true =>
    exact ⟨by simp [sendProposal, hem, hcn, hco, hne, hnn, hnc, hvalid, hfresh, dbInsert],
      ⟨[CreateAction.sendClientEmail (stripHtml e), CreateAction.sendInternalEmail],
        by simp [sendProposal, hem, hcn, hco, hne, hnn, hnc, hvalid, hfresh], by simp⟩,
      by rintro (h | h) <;> simp at h⟩

/-- Claim C7 witness: a create request whose client-email send fails. -/
theorem c7_witness :
    (sendProposal initState sampleBody "p9" 3 false true).state.db "p9" =
      some (mkInsertedProposal "Jane Doe" "Acme" "a@b.com" sampleBody 3) ∧
    (sendProposal initState sampleBody "p9" 3 false true).result =
      CreateResult.internalError := by
  have h := c7_create_durable_before_notification initState sampleBody "p9" 3 false true
    "a@b.com" "Jane Doe" "Acme" rfl rfl rfl (by decide) (by decide) (by decide)
    (by decide) rfl
  exact ⟨h.1, h.2.2 (Or.inl rfl)⟩

/-- Claim C1: the stored `status` only advances (it stays, or moves from a
not-yet-signed value to `signed`) and never regresses under any operation;
and when two sign requests race on the same unsigned proposal — the store
serialising their conditional updates, here with request 1's update
committing first — exactly one performs the transition: request 1's
conditional update matches, request 2's does not and its re-read observes
the Conflict outcome, and the stored signature fields are those of the
winning request. -/
theorem c1_sign_race (st : SystemState) (id : String) (p : Proposal)
    (n1 d1 n2 d2 : String) (t1 t2 : Nat) (ok1 ok2 : Bool)
    (hrow : st.db id = some p) (hunsigned : p.status ≠ "signed")
    (hn1 : n1.isEmpty = false) (hd1 : d1.isEmpty = false) (hl1 : ¬ d1.length > 500000)
    (hn2 : n2.isEmpty = false) (hd2 : d2.isEmpty = false) (hl2 : ¬ d2.length > 500000) :
    (∀ s t, Step s t → ∀ k q, s.db k = some q →
      ∃ r, t.db k = some r ∧
        (r.status = q.status ∨ (q.status ≠ "signed" ∧ r.status = "signed"))) ∧
    (signProposal st id (some n1) (some d1) t1 ok1).transitioned = true ∧
    (signProposal (signProposal st id (some n1) (some d1) t1 ok1).state
      id (some n2) (some d2) t2 ok2).transitioned = false ∧
    (signProposal (signProposal st id (some n1) (some d1) t1 ok1).state
      id (some n2) (some d2) t2 ok2).result = SignResult.conflict ∧
    (signProposal (signProposal st id (some n1) (some d1) t1 ok1).state
      id (some n2) (some d2) t2 ok2).state.db id = some (applySign n1 d1 t1 p) := by
  have h1 : signProposal st id (some n1) (some d1) t1 ok1 =
      { state := { st with db := dbMapRow st.db id (applySign n1 d1 t1) },
        result := if ok1 then SignResult.signed else SignResult.internalError,
        transitioned := true } := by
    simp [signProposal, hn1, hd1, hl1, hrow, hunsigned]
  have hrow1 : dbMapRow st.db id (applySign n1 d1 t1) id = some (applySign n1 d1 t1 p) := by
    simp [dbMapRow, hrow]
  have h2 : signProposal { st with db := dbMapRow st.db id (applySign n1 d1 t1) }
      id (some n2) (some d2) t2 ok2 =
      { state := { st with db := dbMapRow st.db id (applySign n1 d1 t1) },
        result := SignResult.conflict, transitioned := false } := by
    simp [signProposal, hn2, hd2, hl2, hrow1, applySign]
  refine ⟨fun s t hstep k q hq => ?_, ?_, ?_, ?_, ?_⟩
  · obtain ⟨r, hr, hs, -, -⟩ := step_row_advance hstep k q hq
    exact ⟨r, hr, hs⟩
  · rw [h1]
  · rw [h1, h2]
  · rw [h1, h2]
  · rw [h1, h2]
    exact hrow1

/-- Claim C1 witness: two sign requests on the fresh unsigned `p1`. -/
theorem c1_witness :
    (signProposal sampleState "p1" (some "Jane Doe") (some "sigOne") 5 true).transitioned
      = true ∧
    (signProposal (signProposal sampleState "p1" (some "Jane Doe") (some "sigOne") 5
      true).state "p1" (some "John Roe") (some "sigTwo") 6 true).transitioned = false ∧
    (signProposal (signProposal sampleState "p1" (some "Jane Doe") (some "sigOne") 5
      true).state "p1" (some "John Roe") (some "sigTwo") 6 true).result =
      SignResult.conflict ∧
    (signProposal (signProposal sampleState "p1" (some "Jane Doe") (some "sigOne") 5
      true).state "p1" (some "John Roe") (some "sigTwo") 6 true).state.db "p1" =
      some (applySign "Jane Doe" "sigOne" 5 sampleRow) := by
  have h := c1_sign_race sampleState "p1" sampleRow "Jane Doe" "sigOne" "John Roe" "sigTwo"
    5 6 true true (by decide) (by decide) (by decide) (by decide) (by decide)
    (by decide) (by decide) (by decide)
  exact ⟨h.2.1, h.2.2.1, h.2.2.2.1, h.2.2.2.2⟩

/-- Claim C8: in every state reachable through the system's operations
(create, view, sign, checkout-session creation, payment-confirmation
webhook), no proposal is paid while unsigned: a paid row is signed. -/
theorem c8_paid_implies_signed {st : SystemState} (h : Reachable st) (id : String)
    (p : Proposal) (hrow : st.db id = some p) (hpaid : p.payment_status = "paid") :
    p.status = "signed" :=
  (reachable_paidInv h).1 id p hrow hpaid

/-- Claim C8 witness: the concrete trace create, sign, checkout, webhook
reaches a paid state, and the theorem yields that its row is signed. -/
theorem c8_witness : chainRow.status = "signed" := by
  have h1 : Reachable chainS1 :=
    Reachable.step Reachable.init (Step.create initState sampleBody "p1" 0 true true)
  have h2 : Reachable chainS2 :=
    Reachable.step h1 (Step.sign chainS1 "p1" (some "Jane Doe") (some "sig") 1 true)
  have h3 : Reachable chainS3 :=
    Reachable.step h2 (Step.checkout chainS2 "p1" "cs_1" true)
  have h4 : Reachable chainS4 :=
    Reachable.step h3 (Step.webhook chainS3 true chainEvent
      (fun _ _ pid hpid _ => by
        have hp : pid = "p1" := by simpa [chainEvent] using hpid.symm
        subst hp
        left
        decide))
  exact c8_paid_implies_signed h4 "p1" chainRow (by decide) (by decide)
